import Mathlib

/-!
Verification of the embedded business-network connection
(`packages/composer-connector-embedded/lib/embeddedconnection.js`).

The module-level registry tables (`businessNetworks`, `chaincodes`) are
JavaScript objects; we embed them as association lists without duplicate
keys, where assignment overwrites the first matching key and `delete`
removes it.  Asynchronous methods are embedded as pure functions returning
`Except JsError` together with the updated state; a rejected promise is an
`Except.error` carrying the JavaScript error value.  External collaborators
(the execution engine's `init`/`query`/`invoke`, the certificate utility,
the fresh container UUID and the random secret) are supplied as explicit
parameters, so one call of the embedded function corresponds to one call of
the source method against a fixed behaviour of the collaborators.
-/

namespace Composer

/-- A JavaScript error value: its constructor name and its `message`.
Errors thrown deliberately by the connector with `new Error(...)` carry the
name `"Error"`; runtime faults such as reading a property of `undefined`
carry the name `"TypeError"`. -/
structure JsError where
  name : String
  message : String
  deriving DecidableEq, Repr

/-- Association-list lookup, embedding JavaScript object property read
(`obj[key]`, giving `undefined` when the key is absent). -/
def objGet (k : String) : List (String × α) → Option α
  | [] => none
  | (k', v) :: rest => if k' = k then some v else objGet k rest

/-- Association-list overwrite-or-append, embedding JavaScript object
property assignment (`obj[key] = v`). -/
def objSet (k : String) (v : α) : List (String × α) → List (String × α)
  | [] => [(k, v)]
  | (k', v') :: rest => if k' = k then (k, v) :: rest else (k', v') :: objSet k v rest

/-- Association-list removal, embedding JavaScript `delete obj[key]`. -/
def objDel (k : String) : List (String × α) → List (String × α)
  | [] => []
  | (k', v') :: rest => if k' = k then objDel k rest else (k', v') :: objDel k rest

/-- Number of entries stored under a key (a well-formed object has at most
one). -/
def countKey (k : String) (m : List (String × α)) : Nat :=
  (m.filter (fun p => p.1 = k)).length

/-- An execution container (`EmbeddedContainer`): an opaque handle exposing
its fresh UUID (`getUUID`). -/
structure Container where
  uuid : String
  deriving DecidableEq, Repr

/-- An execution engine (`new Engine(container)`): bound 1:1 to the
container it was constructed from. -/
structure Engine where
  containerUUID : String
  deriving DecidableEq, Repr

/-- One entry of the `chaincodes` table: `addChaincode` stores
`{ uuid, container, engine }`. -/
structure Chaincode where
  uuid : String
  container : Container
  engine : Engine
  deriving DecidableEq, Repr

/-- The module-level registry: `businessNetworks` maps the key
`businessNetworkIdentifier + "@" + connectionProfile` to a chaincode UUID,
and `chaincodes` maps chaincode UUIDs to their instance objects. -/
structure Registry where
  businessNetworks : List (String × String)
  chaincodes : List (String × Chaincode)
  deriving DecidableEq, Repr

/-- The template-literal key of the `businessNetworks` table. -/
def bnKey (businessNetworkIdentifier connectionProfile : String) : String :=
  businessNetworkIdentifier ++ "@" ++ connectionProfile

/-- `EmbeddedConnection.reset`: clears both tables. -/
def Registry.reset : Registry :=
  { businessNetworks := [], chaincodes := [] }

/-- `EmbeddedConnection.addBusinessNetwork`. -/
def addBusinessNetwork (businessNetworkIdentifier connectionProfile chaincodeUUID : String)
    (r : Registry) : Registry :=
  { r with businessNetworks :=
      (objSet (bnKey businessNetworkIdentifier connectionProfile) chaincodeUUID
        r.businessNetworks) }

/-- `EmbeddedConnection.getBusinessNetwork`. -/
def getBusinessNetwork (businessNetworkIdentifier connectionProfile : String)
    (r : Registry) : Option String :=
  objGet (bnKey businessNetworkIdentifier connectionProfile) r.businessNetworks

/-- `EmbeddedConnection.deleteBusinessNetwork`: looks the binding up; when
the stored UUID is truthy (in particular not the empty string) it deletes
the chaincode entry and then the binding; otherwise it does nothing. -/
def deleteBusinessNetwork (businessNetworkIdentifier connectionProfile : String)
    (r : Registry) : Registry :=
  match objGet (bnKey businessNetworkIdentifier connectionProfile) r.businessNetworks with
  | none => r
  | some chaincodeUUID =>
      if chaincodeUUID = "" then r
      else
        { businessNetworks :=
            objDel (bnKey businessNetworkIdentifier connectionProfile) r.businessNetworks,
          chaincodes := objDel chaincodeUUID r.chaincodes }

/-- `EmbeddedConnection.addChaincode`. -/
def addChaincode (chaincodeUUID : String) (container : Container) (engine : Engine)
    (r : Registry) : Registry :=
  { r with chaincodes :=
      (objSet chaincodeUUID
        { uuid := chaincodeUUID, container := container, engine := engine }
        r.chaincodes) }

/-- `EmbeddedConnection.getChaincode`. -/
def getChaincode (chaincodeUUID : String) (r : Registry) : Option Chaincode :=
  objGet chaincodeUUID r.chaincodes

/-- `EmbeddedConnection.createContainer`: a fresh `EmbeddedContainer`; the
fresh UUID the container reports is passed in explicitly. -/
def createContainer (freshUUID : String) : Container :=
  { uuid := freshUUID }

/-- `EmbeddedConnection.createEngine`. -/
def createEngine (container : Container) : Engine :=
  { containerUUID := container.uuid }

/-- `EmbeddedConnection.prototype.start`, as a function of the registry
state.  `connectionProfile` is the connection's profile name, `freshUUID`
the UUID reported by the freshly created container, and `initResult` the
outcome of the external `engine.init(context, 'init', [startTransaction])`
call.  The source registers the binding and the chaincode instance before
awaiting `init`, performs no existence check, and has no catch clause, so
the returned state is updated unconditionally and the returned outcome is
exactly the engine's. -/
def start (r : Registry) (connectionProfile businessNetworkIdentifier : String)
    (freshUUID : String) (initResult : Except JsError Unit) :
    Except JsError Unit × Registry :=
  let container := createContainer freshUUID
  let chaincodeUUID := container.uuid
  let engine := createEngine container
  let r1 := addBusinessNetwork businessNetworkIdentifier connectionProfile chaincodeUUID r
  let r2 := addChaincode chaincodeUUID container engine r1
  (initResult, r2)

/-- `EmbeddedConnection.prototype.undeploy`: delegates to
`deleteBusinessNetwork` and always resolves. -/
def undeploy (r : Registry) (connectionProfile businessNetworkIdentifier : String) :
    Registry :=
  deleteBusinessNetwork businessNetworkIdentifier connectionProfile r

/-- The option map of an identity; the source only ever reads the
`issuer` key, with a JavaScript-falsy value (absent, `undefined`, `false`)
embedded as `false`. -/
structure IdentityOptions where
  issuer : Bool
  deriving DecidableEq, Repr

/-- A stored identity record, with the exact field set built by
`_createAdminIdentity` and `createIdentity`. -/
structure Identity where
  identifier : String
  name : String
  issuer : String
  secret : String
  certificate : String
  publicKey : String
  privateKey : String
  imported : Bool
  options : IdentityOptions
  deriving DecidableEq, Repr

/-- An `EmbeddedSecurityContext`: the authenticated identity plus the
chaincode ID, which is `null` (here `none`) until `setChaincodeID` is
called. -/
structure SecurityCtx where
  identity : Identity
  chaincodeID : Option String
  deriving DecidableEq, Repr

/-- `getChaincode` applied to the context's chaincode ID, as done at the
top of `queryChainCode` and `invokeChainCode`: a `null` ID or an ID with no
entry in the `chaincodes` table yields `undefined`. -/
def resolveChaincode (r : Registry) (ctx : SecurityCtx) : Option Chaincode :=
  match ctx.chaincodeID with
  | none => none
  | some chaincodeUUID => getChaincode chaincodeUUID r

/-- The TypeError the JavaScript runtime raises when `queryChainCode` or
`invokeChainCode` evaluates `chaincode.engine` and `chaincode` is
`undefined`. -/
def typeErrorEngineUndefined : JsError :=
  { name := "TypeError",
    message := "Cannot read property engine of undefined" }

/-- `EmbeddedConnection.prototype.queryChainCode`, as a function of the
registry state.  The external engine's `query` call (and the subsequent
`Buffer.from(JSON.stringify(data))` serialisation of its result) is
abstracted by the `engineQuery` parameter, keyed by the engine the call is
delegated to.  The source resolves the chaincode via `getChaincode` and
immediately dereferences `chaincode.engine` with no existence check, so an
unresolved chaincode raises a TypeError. -/
def queryChainCode (r : Registry) (ctx : SecurityCtx)
    (engineQuery : Engine → Except JsError String) : Except JsError String :=
  match resolveChaincode r ctx with
  | none => .error typeErrorEngineUndefined
  | some chaincode => engineQuery chaincode.engine

/-- `EmbeddedConnection.prototype.invokeChainCode`: same resolution as
`queryChainCode`; the engine's return value is discarded but the call is
awaited, so engine failures propagate. -/
def invokeChainCode (r : Registry) (ctx : SecurityCtx)
    (engineInvoke : Engine → Except JsError Unit) : Except JsError Unit :=
  match resolveChaincode r ctx with
  | none => .error typeErrorEngineUndefined
  | some chaincode =>
      match engineInvoke chaincode.engine with
      | .error e => .error e
      | .ok _ => .ok ()

/-- The result of `CertificateUtil.generate({ commonName })`. -/
structure KeyMaterial where
  publicKey : String
  privateKey : String
  certificate : String
  deriving DecidableEq, Repr

/-- What `new Certificate(certificate)` exposes of a certificate blob. -/
structure CertFacts where
  identifier : String
  issuer : String
  name : String
  deriving DecidableEq, Repr

/-- Modelled from the spec: the certificate utility collaborator (spec §6),
`generate({commonName}) -> {publicKey, privateKey, certificate}` and
`Certificate(certificate)` with its `getIdentifier`/`getIssuer`/`getName`
accessors.  Its implementation lives in `composer-common`, outside this
repository, so it is kept abstract: one `Crypto` value fixes the behaviour
of both functions for one run. -/
structure Crypto where
  generate : String → KeyMaterial
  parse : String → CertFacts

/-- The identities collection: an association list of identity records, as
stored by the data service under the `identities` collection name. -/
def IdentityStore := List (String × Identity)

/-- Modelled from the spec: the NotFound failure of the identity
collection's `get` (spec §6); the quote characters of the runtime's message
are omitted. -/
def identityNotFoundError (k : String) : JsError :=
  { name := "Error",
    message := "Object with ID " ++ k ++ " in collection identities does not exist" }

/-- Modelled from the spec: the identity collection's `get` (spec §6,
`get(name) -> record | fails NotFound`); the embedded data service lives
outside this repository. -/
def collGet (items : List (String × Identity)) (k : String) : Except JsError Identity :=
  match objGet k items with
  | some v => .ok v
  | none => .error (identityNotFoundError k)

/-- Modelled from the spec: the identity collection's `exists` (spec §6,
`exists(name) -> bool`). -/
def collExists (items : List (String × Identity)) (k : String) : Bool :=
  (objGet k items).isSome

/-- Modelled from the spec: the identity collection's `add` (spec §6,
`add(name, record) -> fails on duplicate key`); on success the record is
appended. -/
def collAdd (items : List (String × Identity)) (k : String) (v : Identity) :
    Except JsError (List (String × Identity)) :=
  if (objGet k items).isSome then
    .error { name := "Error",
             message := "Failed to add object with ID " ++ k ++ " as the object already exists" }
  else
    .ok (items ++ [(k, v)])

/-- `EmbeddedConnection.prototype._createAdminIdentity`: generates key
material for common name `admin`, derives identifier/issuer/name from the
certificate, builds the identity with the fixed secret `adminpw`,
`imported = false` and `options = { issuer: true }`, and adds the same
record under the key `admin` and under the derived identifier. -/
def createAdminIdentity (cr : Crypto) (items : List (String × Identity)) :
    Except JsError (Identity × List (String × Identity)) :=
  let km := cr.generate "admin"
  let cf := cr.parse km.certificate
  let identity : Identity :=
    { identifier := cf.identifier, name := cf.name, issuer := cf.issuer,
      secret := "adminpw", certificate := km.certificate,
      publicKey := km.publicKey, privateKey := km.privateKey,
      imported := false, options := { issuer := true } }
  match collAdd items "admin" identity with
  | .error e => .error e
  | .ok items1 =>
      match collAdd items1 cf.identifier identity with
      | .error e => .error e
      | .ok items2 => .ok (identity, items2)

/-- `EmbeddedConnection.prototype.getIdentity`: tries the collection's
`get`; on any failure, falls back to `_createAdminIdentity` when the
requested name is `admin` and otherwise rethrows the failure unchanged. -/
def getIdentity (cr : Crypto) (items : List (String × Identity)) (identityName : String) :
    Except JsError (Identity × List (String × Identity)) :=
  match collGet items identityName with
  | .ok identity => .ok (identity, items)
  | .error e =>
      if identityName = "admin" then createAdminIdentity cr items
      else .error e

/-- The error thrown by `testIdentity` on a secret mismatch, with the exact
message of the source. -/
def authenticationFailedError (identityName identitySecret storedSecret : String) : JsError :=
  { name := "Error",
    message := "The secret " ++ identitySecret ++ " specified for the identity " ++
      identityName ++ " does not match the stored secret " ++ storedSecret }

/-- `EmbeddedConnection.prototype.testIdentity`: resolves the identity via
`getIdentity`; returns it unchecked when it is imported or when the name is
`admin`; otherwise compares the supplied secret with the stored one and
throws on mismatch. -/
def testIdentity (cr : Crypto) (items : List (String × Identity))
    (identityName identitySecret : String) :
    Except JsError (Identity × List (String × Identity)) :=
  match getIdentity cr items identityName with
  | .error e => .error e
  | .ok (identity, items1) =>
      if identity.imported then .ok (identity, items1)
      else if identityName = "admin" then .ok (identity, items1)
      else if identity.secret ≠ identitySecret then
        .error (authenticationFailedError identityName identitySecret identity.secret)
      else .ok (identity, items1)

/-- The error thrown by `createIdentity` when the calling identity lacks
the issuer option, with the exact message of the source. -/
def permissionDeniedError (currentName identityName : String) : JsError :=
  { name := "Error",
    message := "The identity " ++ currentName ++
      " does not have permission to create a new identity " ++ identityName }

/-- The `{userID, userSecret}` pair returned by `createIdentity`. -/
structure CreateResult where
  userID : String
  userSecret : String
  deriving DecidableEq, Repr

/-- `EmbeddedConnection.prototype.createIdentity`, as a function of the
identities collection.  `currentIdentity` is the security context's
identity, `freshSecret` the value of `uuid.v4().substring(0, 8)` drawn when
a new identity is minted.  The issuer check comes first; when the name
already exists the stored record's name and secret are returned and
nothing is added; otherwise the new record is added under the chosen name
and under the derived identifier, with `options` defaulting to the empty
map. -/
def createIdentity (cr : Crypto) (freshSecret : String)
    (items : List (String × Identity)) (currentIdentity : Identity)
    (identityName : String) (options : Option IdentityOptions) :
    Except JsError (CreateResult × List (String × Identity)) :=
  if ¬ currentIdentity.options.issuer then
    .error (permissionDeniedError currentIdentity.name identityName)
  else if collExists items identityName then
    match collGet items identityName with
    | .error e => .error e
    | .ok identity =>
        .ok ({ userID := identity.name, userSecret := identity.secret }, items)
  else
    let km := cr.generate identityName
    let cf := cr.parse km.certificate
    let identity : Identity :=
      { identifier := cf.identifier, name := cf.name, issuer := cf.issuer,
        secret := freshSecret, certificate := km.certificate,
        publicKey := km.publicKey, privateKey := km.privateKey,
        imported := false, options := options.getD { issuer := false } }
    match collAdd items identityName identity with
    | .error e => .error e
    | .ok items1 =>
        match collAdd items1 cf.identifier identity with
        | .error e => .error e
        | .ok items2 =>
            .ok ({ userID := identity.name, userSecret := identity.secret }, items2)

/-- The admin identity record that `_createAdminIdentity` builds, as a
function of the certificate utility: the object literal of the source with
`km = generate({commonName: "admin"})` and `cf = new Certificate(km.certificate)`
substituted in. -/
def builtAdminIdentity (cr : Crypto) : Identity :=
  { identifier := (cr.parse (cr.generate "admin").certificate).identifier,
    name := (cr.parse (cr.generate "admin").certificate).name,
    issuer := (cr.parse (cr.generate "admin").certificate).issuer,
    secret := "adminpw",
    certificate := (cr.generate "admin").certificate,
    publicKey := (cr.generate "admin").publicKey,
    privateKey := (cr.generate "admin").privateKey,
    imported := false,
    options := { issuer := true } }

/-- The identity record that `createIdentity` mints for a new name: the
object literal of the source with the generated key material substituted
in. -/
def mintedIdentity (cr : Crypto) (freshSecret identityName : String)
    (options : Option IdentityOptions) : Identity :=
  { identifier := (cr.parse (cr.generate identityName).certificate).identifier,
    name := (cr.parse (cr.generate identityName).certificate).name,
    issuer := (cr.parse (cr.generate identityName).certificate).issuer,
    secret := freshSecret,
    certificate := (cr.generate identityName).certificate,
    publicKey := (cr.generate identityName).publicKey,
    privateKey := (cr.generate identityName).privateKey,
    imported := false,
    options := options.getD { issuer := false } }

/-- Modelled from the spec: the spec's error taxonomy (§7) requires `start`
to surface a duplicate network as the typed reason `NetworkAlreadyExists`
carrying the offending network name in the message; the translation itself
is not present in this repository's source, so the typed error is modelled
as one whose name is the typed reason and whose message mentions the
network. -/
def isNetworkAlreadyExists (businessNetworkIdentifier : String) (e : JsError) : Bool :=
  e.name == "NetworkAlreadyExists" &&
    (e.message.splitOn businessNetworkIdentifier).length ≥ 2

/-- Modelled from the spec: the spec's error taxonomy (§7) requires
dispatch against an unbound or stale chaincode id to fail with the typed
reason `ChaincodeNotFound`; no such typed error exists in this repository's
source, so it is modelled as an error whose name is the typed reason. -/
def isChaincodeNotFound (e : JsError) : Bool :=
  e.name == "ChaincodeNotFound"

/-- A concrete certificate utility used to evaluate the theorems below on
closed inputs: certificates are tagged with their common name, and the
derived identifier is distinct from every common name. -/
def sampleCrypto : Crypto where
  generate := fun commonName =>
    { publicKey := "pk-" ++ commonName, privateKey := "sk-" ++ commonName,
      certificate := "cert-" ++ commonName }
  parse := fun certificate =>
    { identifier := "ID-" ++ certificate, issuer := "CA", name := certificate.drop 5 }

/-- A concrete stored, non-imported, non-admin identity. -/
def bobIdentity : Identity :=
  { identifier := "ID-cert-bob1", name := "bob1", issuer := "CA",
    secret := "suchsecret", certificate := "cert-bob1", publicKey := "pk-bob1",
    privateKey := "sk-bob1", imported := false, options := { issuer := false } }

/-- A concrete identity whose options grant the issuer privilege. -/
def issuerIdentity : Identity :=
  { identifier := "ID-cert-root", name := "root", issuer := "CA",
    secret := "rootpw", certificate := "cert-root", publicKey := "pk-root",
    privateKey := "sk-root", imported := false, options := { issuer := true } }

/-- A concrete registry holding one started network: the pair
`("net", "prof")` is bound to chaincode `u1`. -/
def oneNetworkRegistry : Registry :=
  { businessNetworks := [("net@prof", "u1")],
    chaincodes := [("u1",
      { uuid := "u1", container := { uuid := "u1" },
        engine := { containerUUID := "u1" } })] }

theorem objGet_objSet_self (k : String) (v : α) (m : List (String × α)) :
    objGet k (objSet k v m) = some v := by
  induction m with
  | nil => simp [objSet, objGet]
  | cons p rest ih =>
      obtain ⟨k', v'⟩ := p
      by_cases h : k' = k
      · simp [objSet, objGet, h]
      · simp [objSet, objGet, h, ih]

theorem objGet_objSet_ne (k q : String) (v : α) (m : List (String × α)) (h : q ≠ k) :
    objGet q (objSet k v m) = objGet q m := by
  induction m with
  | nil => simp [objSet, objGet, Ne.symm h]
  | cons p rest ih =>
      obtain ⟨k', v'⟩ := p
      by_cases hk : k' = k
      · subst hk
        simp [objSet, objGet, Ne.symm h]
      · simp [objSet, objGet, hk, ih]

theorem objGet_objDel_self (k : String) (m : List (String × α)) :
    objGet k (objDel k m) = none := by
  induction m with
  | nil => simp [objDel, objGet]
  | cons p rest ih =>
      obtain ⟨k', v'⟩ := p
      by_cases h : k' = k
      · simp [objDel, h, ih]
      · simp [objDel, objGet, h, ih]

theorem objGet_append (k : String) (m₁ m₂ : List (String × α)) :
    objGet k (m₁ ++ m₂) =
      (match objGet k m₁ with
       | some v => some v
       | none => objGet k m₂) := by
  induction m₁ with
  | nil => simp [objGet]
  | cons p rest ih =>
      obtain ⟨k', v'⟩ := p
      by_cases h : k' = k
      · simp [objGet, h]
      · simp [objGet, h, ih]

theorem countKey_objSet (k : String) (v : α) (m : List (String × α)) :
    countKey k (objSet k v m) = max 1 (countKey k m) := by
  induction m with
  | nil => simp [objSet, countKey]
  | cons p rest ih =>
      obtain ⟨k', v'⟩ := p
      by_cases h : k' = k
      · simp [objSet, countKey, h]
      · simpa [objSet, countKey, h] using ih

/-- C1, counterexample: in a registry where the pair `("net", "prof")` is
already bound to chaincode `u1`, calling `start` again (fresh container
UUID `u2`, successful init) rebinds the pair to `u2` rather than reusing
the existing chaincode id, and leaves both `u1` and `u2` registered — a
duplicate container/engine — so the binding no longer resolves to the
original chaincode instance. -/
theorem start_rebind_counterexample :
    getBusinessNetwork "net" "prof"
        (start oneNetworkRegistry "prof" "net" "u2" (.ok ())).snd = some "u2" ∧
    getBusinessNetwork "net" "prof" oneNetworkRegistry = some "u1" ∧
    ("u2" : String) ≠ "u1" ∧
    (getChaincode "u1" (start oneNetworkRegistry "prof" "net" "u2" (.ok ())).snd).isSome
      = true ∧
    (getChaincode "u2" (start oneNetworkRegistry "prof" "net" "u2" (.ok ())).snd).isSome
      = true := by
  refine ⟨rfl, rfl, by decide, rfl, rfl⟩

/-- C1, amended: starting an already-bound `(networkId, profile)` pair does
not reuse the existing chaincode.  It creates a fresh container/engine,
overwrites the binding to the fresh chaincode id (so the registry still
holds exactly one binding for the pair, but resolving to the new
instance), and leaves the previous chaincode instance registered, orphaned,
in the instance table. -/
theorem start_on_bound_pair_overwrites
    (r : Registry) (profile networkId oldUUID freshUUID : String)
    (res : Except JsError Unit)
    (hbound : getBusinessNetwork networkId profile r = some oldUUID)
    (hfresh : freshUUID ≠ oldUUID)
    (hone : countKey (bnKey networkId profile) r.businessNetworks = 1) :
    getBusinessNetwork networkId profile (start r profile networkId freshUUID res).snd
        = some freshUUID ∧
    countKey (bnKey networkId profile)
        (start r profile networkId freshUUID res).snd.businessNetworks = 1 ∧
    getChaincode oldUUID (start r profile networkId freshUUID res).snd
        = getChaincode oldUUID r ∧
    getChaincode freshUUID (start r profile networkId freshUUID res).snd
        = some { uuid := freshUUID, container := { uuid := freshUUID },
                 engine := { containerUUID := freshUUID } } := by
  refine ⟨?_, ?_, ?_, ?_⟩
  · simp [start, addChaincode, addBusinessNetwork, getBusinessNetwork,
      createContainer, createEngine, objGet_objSet_self]
  · simp [start, addChaincode, addBusinessNetwork, createContainer, createEngine,
      countKey_objSet, hone]
  · simp [start, addChaincode, addBusinessNetwork, getChaincode,
      createContainer, createEngine, objGet_objSet_ne _ _ _ _ (Ne.symm hfresh)]
  · simp [start, addChaincode, addBusinessNetwork, getChaincode,
      createContainer, createEngine, objGet_objSet_self]

/-- C1, witness for the amended theorem, at the concrete registry holding
the binding `("net", "prof") ↦ u1`. -/
theorem start_on_bound_pair_overwrites_witness :
    getBusinessNetwork "net" "prof"
        (start oneNetworkRegistry "prof" "net" "u2" (.ok ())).snd = some "u2" ∧
    countKey (bnKey "net" "prof")
        (start oneNetworkRegistry "prof" "net" "u2" (.ok ())).snd.businessNetworks = 1 ∧
    getChaincode "u1" (start oneNetworkRegistry "prof" "net" "u2" (.ok ())).snd
        = getChaincode "u1" oneNetworkRegistry ∧
    getChaincode "u2" (start oneNetworkRegistry "prof" "net" "u2" (.ok ())).snd
        = some { uuid := "u2", container := { uuid := "u2" },
                 engine := { containerUUID := "u2" } } :=
  start_on_bound_pair_overwrites oneNetworkRegistry "prof" "net" "u1" "u2" (.ok ())
    rfl (by decide) rfl

/-- C2, counterexample: when the engine's `init` rejects with the
duplicate-network message `cannot add testnetwork as the object already
exists`, `start` rejects with exactly that engine error, verbatim; the
surfaced error is not the typed `NetworkAlreadyExists` failure the claim
requires — the embedded `start` has no catch clause and performs no
translation. -/
theorem start_no_translation_counterexample :
    (start Registry.reset "prof" "testnetwork" "u1"
        (.error { name := "Error",
                  message := "cannot add testnetwork as the object already exists" })).fst
      = .error { name := "Error",
                 message := "cannot add testnetwork as the object already exists" } ∧
    isNetworkAlreadyExists "testnetwork"
        { name := "Error",
          message := "cannot add testnetwork as the object already exists" } = false :=
  ⟨rfl, rfl⟩

/-- C2, amended: every failure of the engine's `init` call propagates to
the caller of `start` verbatim — including failures whose message indicates
a duplicate network; the embedded connection performs no
`NetworkAlreadyExists` translation. -/
theorem start_propagates_engine_failures_verbatim
    (r : Registry) (profile networkId freshUUID : String) (e : JsError) :
    (start r profile networkId freshUUID (.error e)).fst = .error e := rfl

/-- C3, counterexample: dispatching with an unbound chaincode id (`null`)
or a stale one (`stale`, absent from the instance table) fails with the
runtime TypeError raised by reading `engine` of `undefined` — an untyped
failure, not the typed `ChaincodeNotFound` the claim requires. -/
theorem dispatch_type_error_counterexample :
    queryChainCode Registry.reset { identity := bobIdentity, chaincodeID := none }
        (fun _ => .ok "queried") = .error typeErrorEngineUndefined ∧
    invokeChainCode Registry.reset { identity := bobIdentity, chaincodeID := some "stale" }
        (fun _ => .ok ()) = .error typeErrorEngineUndefined ∧
    isChaincodeNotFound typeErrorEngineUndefined = false ∧
    typeErrorEngineUndefined.name = "TypeError" :=
  ⟨rfl, rfl, rfl, rfl⟩

/-- C3, amended: for every security context whose bound chaincode id is
absent or does not resolve to a registered chaincode instance, both
`queryChainCode` and `invokeChainCode` fail — but with the untyped runtime
TypeError from dereferencing the unresolved instance, not with a typed
`ChaincodeNotFound` failure. -/
theorem dispatch_unresolved_raises_untyped_type_error
    (r : Registry) (ctx : SecurityCtx)
    (engineQuery : Engine → Except JsError String)
    (engineInvoke : Engine → Except JsError Unit)
    (h : resolveChaincode r ctx = none) :
    queryChainCode r ctx engineQuery = .error typeErrorEngineUndefined ∧
    invokeChainCode r ctx engineInvoke = .error typeErrorEngineUndefined := by
  constructor
  · simp [queryChainCode, h]
  · simp [invokeChainCode, h]

/-- C3, witness for the amended theorem, with an unbound context against
the cleared registry. -/
theorem dispatch_unresolved_raises_untyped_type_error_witness :
    queryChainCode Registry.reset { identity := issuerIdentity, chaincodeID := none }
        (fun _ => .ok "pong") = .error typeErrorEngineUndefined ∧
    invokeChainCode Registry.reset { identity := issuerIdentity, chaincodeID := none }
        (fun _ => .ok ()) = .error typeErrorEngineUndefined :=
  dispatch_unresolved_raises_untyped_type_error Registry.reset
    { identity := issuerIdentity, chaincodeID := none }
    (fun _ => .ok "pong") (fun _ => .ok ()) rfl

/-- C9: `undeploy` on a bound `(networkId, profile)` pair (whose stored
chaincode UUID is a real, non-empty id) removes the binding and cascades
removal of the associated chaincode instance; on a pair with no binding it
is a no-op — it returns the registry unchanged, mutating neither table, and
it cannot fail (the embedding is a total function, as the source method has
no throw path). -/
theorem undeploy_cascade_and_noop
    (r : Registry) (profile networkId : String) :
    (∀ u, getBusinessNetwork networkId profile r = some u → u ≠ "" →
        getBusinessNetwork networkId profile (undeploy r profile networkId) = none ∧
        getChaincode u (undeploy r profile networkId) = none) ∧
    (getBusinessNetwork networkId profile r = none →
        undeploy r profile networkId = r) := by
  constructor
  · intro u hu hne
    simp [getBusinessNetwork] at hu
    constructor
    · simp [undeploy, deleteBusinessNetwork, hu, hne, getBusinessNetwork,
        objGet_objDel_self]
    · simp [undeploy, deleteBusinessNetwork, hu, hne, getChaincode,
        objGet_objDel_self]
  · intro h
    simp [getBusinessNetwork] at h
    simp [undeploy, deleteBusinessNetwork, h]

/-- C9, witness: against the concrete one-network registry, undeploying the
bound network removes both the binding and the instance, and undeploying an
unknown network returns the registry unchanged. -/
theorem undeploy_cascade_and_noop_witness :
    getBusinessNetwork "net" "prof" (undeploy oneNetworkRegistry "prof" "net") = none ∧
    getChaincode "u1" (undeploy oneNetworkRegistry "prof" "net") = none ∧
    undeploy oneNetworkRegistry "prof" "other" = oneNetworkRegistry :=
  ⟨((undeploy_cascade_and_noop oneNetworkRegistry "prof" "net").1 "u1" rfl (by decide)).1,
   ((undeploy_cascade_and_noop oneNetworkRegistry "prof" "net").1 "u1" rfl (by decide)).2,
   (undeploy_cascade_and_noop oneNetworkRegistry "prof" "other").2 rfl⟩

/-- C10: `start` is not atomic with respect to the registry.  The binding
and the fresh chaincode instance are registered before the engine's `init`
outcome is consulted, so when `init` fails the failure propagates while the
new binding and chaincode entry remain registered — the resulting registry
is exactly the one obtained by `addBusinessNetwork` then `addChaincode`,
the binding for the pair resolves to the fresh UUID (any previous binding
under the same key having been overwritten), and no rollback occurs. -/
theorem start_registers_before_init_no_rollback
    (r : Registry) (profile networkId freshUUID : String) (e : JsError) :
    (start r profile networkId freshUUID (.error e)).fst = .error e ∧
    (start r profile networkId freshUUID (.error e)).snd =
      addChaincode freshUUID (createContainer freshUUID)
        (createEngine (createContainer freshUUID))
        (addBusinessNetwork networkId profile freshUUID r) ∧
    getBusinessNetwork networkId profile (start r profile networkId freshUUID (.error e)).snd
      = some freshUUID ∧
    (getChaincode freshUUID (start r profile networkId freshUUID (.error e)).snd).isSome
      = true := by
  refine ⟨rfl, rfl, ?_, ?_⟩
  · simp [start, addChaincode, addBusinessNetwork, getBusinessNetwork,
      createContainer, createEngine, objGet_objSet_self]
  · simp [start, addChaincode, addBusinessNetwork, getChaincode,
      createContainer, createEngine, objGet_objSet_self]

/-- C4: for an identity record stored under `identityName`: when the
record is imported or the name is `admin`, `testIdentity` succeeds for
every secret without comparing it; when the record is not imported and the
name is not `admin`, `testIdentity` succeeds and returns the stored record
exactly when the supplied secret equals the stored secret, and otherwise
fails with the authentication error. -/
theorem testIdentity_secret_check
    (cr : Crypto) (items : List (String × Identity))
    (identityName identitySecret : String) (identity : Identity)
    (hstored : objGet identityName items = some identity) :
    ((identity.imported = true ∨ identityName = "admin") →
        testIdentity cr items identityName identitySecret = .ok (identity, items)) ∧
    (identity.imported = false → identityName ≠ "admin" →
        ((testIdentity cr items identityName identitySecret = .ok (identity, items) ↔
            identitySecret = identity.secret) ∧
         (identitySecret ≠ identity.secret →
            testIdentity cr items identityName identitySecret =
              .error (authenticationFailedError identityName identitySecret
                identity.secret)))) := by
  have hget : getIdentity cr items identityName = .ok (identity, items) := by
    simp [getIdentity, collGet, hstored]
  constructor
  · rintro (h | h)
    · simp [testIdentity, hget, h]
    · subst h
      simp [testIdentity, hget]
  · intro himp hname
    by_cases hsec : identitySecret = identity.secret
    · have hres : testIdentity cr items identityName identitySecret
          = .ok (identity, items) := by
        simp [testIdentity, hget, himp, hname, hsec]
      rw [hres]
      exact ⟨⟨fun _ => hsec, fun _ => rfl⟩, fun hne => absurd hsec hne⟩
    · have hres : testIdentity cr items identityName identitySecret
          = .error (authenticationFailedError identityName identitySecret
              identity.secret) := by
        have hne : identity.secret ≠ identitySecret := fun h => hsec h.symm
        simp [testIdentity, hget, himp, hname, hne]
      rw [hres]
      constructor
      · constructor
        · intro hok
          exact absurd hok (by simp)
        · intro h
          exact absurd h hsec
      · intro _
        rfl

/-- C4, witness: the stored non-imported identity `bob1` with secret
`suchsecret`, tested against the wrong secret `blahblah`. -/
theorem testIdentity_secret_check_witness :
    ((bobIdentity.imported = true ∨ ("bob1" : String) = "admin") →
        testIdentity sampleCrypto [("bob1", bobIdentity)] "bob1" "blahblah"
          = .ok (bobIdentity, [("bob1", bobIdentity)])) ∧
    (bobIdentity.imported = false → ("bob1" : String) ≠ "admin" →
        ((testIdentity sampleCrypto [("bob1", bobIdentity)] "bob1" "blahblah"
            = .ok (bobIdentity, [("bob1", bobIdentity)]) ↔
          ("blahblah" : String) = bobIdentity.secret) ∧
         (("blahblah" : String) ≠ bobIdentity.secret →
            testIdentity sampleCrypto [("bob1", bobIdentity)] "bob1" "blahblah"
              = .error (authenticationFailedError "bob1" "blahblah"
                  bobIdentity.secret)))) :=
  testIdentity_secret_check sampleCrypto [("bob1", bobIdentity)] "bob1" "blahblah"
    bobIdentity rfl

/-- C5: `getIdentity "admin"` is idempotent.  On a store with no admin
record (and whose certificate-derived identifier is likewise free and
distinct from `admin`), the first call synthesizes the bootstrap admin
identity — secret `adminpw`, not imported, options `{ issuer: true }` — and
persists the identical record under both the key `admin` and the derived
identifier, appending exactly those two records; the second call returns
the same record with the store unchanged. -/
theorem getIdentity_admin_idempotent
    (cr : Crypto) (items : List (String × Identity))
    (h1 : objGet "admin" items = none)
    (h2 : objGet (cr.parse (cr.generate "admin").certificate).identifier items = none)
    (h3 : (cr.parse (cr.generate "admin").certificate).identifier ≠ "admin") :
    getIdentity cr items "admin"
      = .ok (builtAdminIdentity cr,
          items ++ [("admin", builtAdminIdentity cr),
            ((cr.parse (cr.generate "admin").certificate).identifier,
             builtAdminIdentity cr)]) ∧
    (builtAdminIdentity cr).secret = "adminpw" ∧
    (builtAdminIdentity cr).imported = false ∧
    (builtAdminIdentity cr).options = { issuer := true } ∧
    objGet "admin"
        (items ++ [("admin", builtAdminIdentity cr),
          ((cr.parse (cr.generate "admin").certificate).identifier,
           builtAdminIdentity cr)]) = some (builtAdminIdentity cr) ∧
    objGet (cr.parse (cr.generate "admin").certificate).identifier
        (items ++ [("admin", builtAdminIdentity cr),
          ((cr.parse (cr.generate "admin").certificate).identifier,
           builtAdminIdentity cr)]) = some (builtAdminIdentity cr) ∧
    getIdentity cr
        (items ++ [("admin", builtAdminIdentity cr),
          ((cr.parse (cr.generate "admin").certificate).identifier,
           builtAdminIdentity cr)]) "admin"
      = .ok (builtAdminIdentity cr,
          items ++ [("admin", builtAdminIdentity cr),
            ((cr.parse (cr.generate "admin").certificate).identifier,
             builtAdminIdentity cr)]) := by
  have hadmin : objGet "admin"
      (items ++ [("admin", builtAdminIdentity cr),
        ((cr.parse (cr.generate "admin").certificate).identifier,
         builtAdminIdentity cr)]) = some (builtAdminIdentity cr) := by
    rw [objGet_append, h1]
    simp [objGet]
  have hsnd : objGet (cr.parse (cr.generate "admin").certificate).identifier
      (items ++ [("admin", builtAdminIdentity cr),
        ((cr.parse (cr.generate "admin").certificate).identifier,
         builtAdminIdentity cr)]) = some (builtAdminIdentity cr) := by
    rw [objGet_append, h2]
    simp [objGet, Ne.symm h3]
  have hmid : objGet (cr.parse (cr.generate "admin").certificate).identifier
      (items ++ [("admin", builtAdminIdentity cr)]) = none := by
    rw [objGet_append, h2]
    simp [objGet, Ne.symm h3]
  refine ⟨?_, rfl, rfl, rfl, hadmin, hsnd, ?_⟩
  · have hmid' := hmid
    simp only [builtAdminIdentity] at hmid'
    simp [getIdentity, collGet, h1, createAdminIdentity, collAdd, hmid',
      builtAdminIdentity]
  · simp [getIdentity, collGet, hadmin]

/-- C5, witness for the idempotence theorem, at the empty store and the
concrete certificate utility. -/
theorem getIdentity_admin_idempotent_witness :
    getIdentity sampleCrypto [] "admin"
      = .ok (builtAdminIdentity sampleCrypto,
          [] ++ [("admin", builtAdminIdentity sampleCrypto),
            ((sampleCrypto.parse (sampleCrypto.generate "admin").certificate).identifier,
             builtAdminIdentity sampleCrypto)]) ∧
    (builtAdminIdentity sampleCrypto).secret = "adminpw" ∧
    (builtAdminIdentity sampleCrypto).imported = false ∧
    (builtAdminIdentity sampleCrypto).options = { issuer := true } ∧
    objGet "admin"
        ([] ++ [("admin", builtAdminIdentity sampleCrypto),
          ((sampleCrypto.parse (sampleCrypto.generate "admin").certificate).identifier,
           builtAdminIdentity sampleCrypto)]) = some (builtAdminIdentity sampleCrypto) ∧
    objGet (sampleCrypto.parse (sampleCrypto.generate "admin").certificate).identifier
        ([] ++ [("admin", builtAdminIdentity sampleCrypto),
          ((sampleCrypto.parse (sampleCrypto.generate "admin").certificate).identifier,
           builtAdminIdentity sampleCrypto)]) = some (builtAdminIdentity sampleCrypto) ∧
    getIdentity sampleCrypto
        ([] ++ [("admin", builtAdminIdentity sampleCrypto),
          ((sampleCrypto.parse (sampleCrypto.generate "admin").certificate).identifier,
           builtAdminIdentity sampleCrypto)]) "admin"
      = .ok (builtAdminIdentity sampleCrypto,
          [] ++ [("admin", builtAdminIdentity sampleCrypto),
            ((sampleCrypto.parse (sampleCrypto.generate "admin").certificate).identifier,
             builtAdminIdentity sampleCrypto)]) :=
  getIdentity_admin_idempotent sampleCrypto [] rfl rfl (by decide)

/-- C6: `createIdentity` is idempotent per name.  A first call by an issuer
for a fresh name persists exactly the pair of records (name-keyed and
identifier-keyed) and returns the minted `{userID, userSecret}` pair; a
second call for the same name — even with a different certificate utility,
a different freshly drawn secret and different options — persists nothing
further and returns the first call's pair unchanged. -/
theorem createIdentity_idempotent
    (cr cr2 : Crypto) (s s2 : String) (items : List (String × Identity))
    (cur : Identity) (identityName : String) (opts opts2 : Option IdentityOptions)
    (hiss : cur.options.issuer = true)
    (h1 : objGet identityName items = none)
    (h2 : objGet (cr.parse (cr.generate identityName).certificate).identifier items = none)
    (h3 : (cr.parse (cr.generate identityName).certificate).identifier ≠ identityName) :
    createIdentity cr s items cur identityName opts =
      .ok ({ userID := (mintedIdentity cr s identityName opts).name, userSecret := s },
        items ++ [(identityName, mintedIdentity cr s identityName opts),
          ((cr.parse (cr.generate identityName).certificate).identifier,
           mintedIdentity cr s identityName opts)]) ∧
    createIdentity cr2 s2
        (items ++ [(identityName, mintedIdentity cr s identityName opts),
          ((cr.parse (cr.generate identityName).certificate).identifier,
           mintedIdentity cr s identityName opts)])
        cur identityName opts2 =
      .ok ({ userID := (mintedIdentity cr s identityName opts).name, userSecret := s },
        items ++ [(identityName, mintedIdentity cr s identityName opts),
          ((cr.parse (cr.generate identityName).certificate).identifier,
           mintedIdentity cr s identityName opts)]) := by
  have hmid : objGet (cr.parse (cr.generate identityName).certificate).identifier
      (items ++ [(identityName, mintedIdentity cr s identityName opts)]) = none := by
    rw [objGet_append, h2]
    simp [objGet, Ne.symm h3]
  have hname1 : objGet identityName
      (items ++ [(identityName, mintedIdentity cr s identityName opts),
        ((cr.parse (cr.generate identityName).certificate).identifier,
         mintedIdentity cr s identityName opts)])
      = some (mintedIdentity cr s identityName opts) := by
    rw [objGet_append, h1]
    simp [objGet]
  constructor
  · have hmid' := hmid
    simp only [mintedIdentity] at hmid'
    simp [createIdentity, hiss, collExists, h1, collGet, collAdd, hmid',
      mintedIdentity]
  · have hname1' := hname1
    simp only [mintedIdentity] at hname1'
    simp [createIdentity, hiss, collExists, hname1', collGet, mintedIdentity]

/-- C6, witness: minting `doge` twice against the empty store; the second
call uses a different secret draw yet returns the first pair. -/
theorem createIdentity_idempotent_witness :
    createIdentity sampleCrypto "f892c30a" [] issuerIdentity "doge" none =
      .ok ({ userID := (mintedIdentity sampleCrypto "f892c30a" "doge" none).name,
             userSecret := "f892c30a" },
        [] ++ [("doge", mintedIdentity sampleCrypto "f892c30a" "doge" none),
          ((sampleCrypto.parse (sampleCrypto.generate "doge").certificate).identifier,
           mintedIdentity sampleCrypto "f892c30a" "doge" none)]) ∧
    createIdentity sampleCrypto "deadbeef"
        ([] ++ [("doge", mintedIdentity sampleCrypto "f892c30a" "doge" none),
          ((sampleCrypto.parse (sampleCrypto.generate "doge").certificate).identifier,
           mintedIdentity sampleCrypto "f892c30a" "doge" none)])
        issuerIdentity "doge" none =
      .ok ({ userID := (mintedIdentity sampleCrypto "f892c30a" "doge" none).name,
             userSecret := "f892c30a" },
        [] ++ [("doge", mintedIdentity sampleCrypto "f892c30a" "doge" none),
          ((sampleCrypto.parse (sampleCrypto.generate "doge").certificate).identifier,
           mintedIdentity sampleCrypto "f892c30a" "doge" none)]) :=
  createIdentity_idempotent sampleCrypto sampleCrypto "f892c30a" "deadbeef" []
    issuerIdentity "doge" none none rfl rfl rfl (by decide)

/-- C7: when the calling identity's issuer option is not set,
`createIdentity` fails with the permission error whose message names both
the calling identity and the requested name.  The failure is the same for
every certificate utility, every secret draw and every store — the throw
happens before any certificate generation or storage access — and, the
result being an error, nothing is persisted. -/
theorem createIdentity_permission_denied
    (cr : Crypto) (s : String) (items : List (String × Identity))
    (cur : Identity) (identityName : String) (opts : Option IdentityOptions)
    (h : cur.options.issuer = false) :
    createIdentity cr s items cur identityName opts =
      .error (permissionDeniedError cur.name identityName) ∧
    (permissionDeniedError cur.name identityName).message =
      "The identity " ++ cur.name ++
        " does not have permission to create a new identity " ++ identityName := by
  constructor
  · simp [createIdentity, h]
  · rfl

/-- C7, witness: the non-issuer identity `bob1` attempting to create
`doge`. -/
theorem createIdentity_permission_denied_witness :
    createIdentity sampleCrypto "f892c30a" [] bobIdentity "doge" none =
      .error (permissionDeniedError bobIdentity.name "doge") ∧
    (permissionDeniedError bobIdentity.name "doge").message =
      "The identity " ++ bobIdentity.name ++
        " does not have permission to create a new identity " ++ "doge" :=
  createIdentity_permission_denied sampleCrypto "f892c30a" [] bobIdentity "doge" none rfl

/-- C8: for a non-admin name with no stored record, `getIdentity` fails
with the collection's NotFound error, propagated to the caller unchanged —
the very error the underlying `get` produced — and no admin bootstrap is
attempted (the outcome is the same for every certificate utility). -/
theorem getIdentity_nonadmin_miss_propagates
    (cr : Crypto) (items : List (String × Identity)) (n : String)
    (hn : n ≠ "admin")
    (h : objGet n items = none) :
    getIdentity cr items n = .error (identityNotFoundError n) ∧
    collGet items n = .error (identityNotFoundError n) := by
  have hc : collGet items n = .error (identityNotFoundError n) := by
    simp [collGet, h]
  exact ⟨by simp [getIdentity, hc, hn], hc⟩

/-- C8, witness: looking up `bob1` in the empty store. -/
theorem getIdentity_nonadmin_miss_propagates_witness :
    getIdentity sampleCrypto [] "bob1" = .error (identityNotFoundError "bob1") ∧
    collGet [] "bob1" = .error (identityNotFoundError "bob1") :=
  getIdentity_nonadmin_miss_propagates sampleCrypto [] "bob1" (by decide) rfl

end Composer
